import Mathlib

/-!
Verification of the shopping-cart subsystem of an e-commerce backend.

The development shallowly embeds the cart repository
(`src/repositories/CarritoRepository.js`), the product lookup inherited from
`BaseRepository` (`src/repositories/ProductRepository.js` on table
`productos`), and the cart domain service (`src/services/CarritoService.js`).

Modelling conventions:
* The database is a record of lists of rows (`carritos`, `detalles_carritos`,
  `productos`) plus fresh-id counters standing for the `bigint` identity
  sequences.
* `.single()` PostgREST queries return data exactly when the filtered row set
  is a singleton; zero rows and multiple rows both produce error `PGRST116`,
  which every caller in this code base treats as "no data".
* Quantities and stock are `Int` (JS `Number.isInteger` / `Number.isFinite`
  checks hold by typing); prices are `ℚ` (the `numeric` column, `parseFloat`
  modelled as the identity on the decimal value).
* Errors are an inductive `CartError`; the `ValidationError` raised by the
  stock check in `agregarProducto` carries the three numbers interpolated
  into its message (`Disponible`, `en carrito`, `solicitado`).
* Fallible operations return `Except CartError _ × DB`: the second component
  is the database at the moment of return or throw, so statements about
  "state unchanged on failure" are expressible.
-/

/-- A row of the `productos` table (the fields selected by the cart code). -/
structure Producto where
  id : Nat
  nombre : String
  descripcion : String
  precio : ℚ
  stock : Int
  id_categoria : Nat
  deriving DecidableEq, Repr

/-- A row of the `carritos` table.
`estado`: 1 = activo, 2 = convertido a pedido, 3 = abandonado. -/
structure Carrito where
  id : Nat
  usuario_id : Nat
  fecha_creacion : Nat
  estado : Nat
  deriving DecidableEq, Repr

/-- A row of the `detalles_carritos` table. -/
structure DetalleCarrito where
  id : Nat
  carrito_id : Nat
  producto_id : Nat
  cantidad : Int
  deriving DecidableEq, Repr

/-- The database state seen by the cart subsystem. `nextCarritoId` and
`nextDetalleId` model the identity sequences; `now` models `now()` used for
`fecha_creacion` defaults. -/
structure DB where
  carritos : List Carrito
  detalles : List DetalleCarrito
  productos : List Producto
  nextCarritoId : Nat
  nextDetalleId : Nat
  now : Nat
  deriving DecidableEq, Repr

/-- PostgREST `.single()`: data exactly when the result set is one row; zero
or multiple rows yield error `PGRST116`, treated as "no data" by the callers
modelled here. -/
def single? {α : Type} : List α → Option α
  | [x] => some x
  | _ => none

/-- Errors observable from the cart service, mirroring the classes in
`src/utils/errors.js` and the distinct `throw` sites. The
`validationStockAgregar` constructor carries the available / in-cart /
requested quantities interpolated into the message
`Stock insuficiente. Disponible: _, en carrito: _, solicitado: _`. -/
inductive CartError where
  /-- `La cantidad debe ser un número entero mayor a 0` -/
  | validationCantidad
  /-- `Stock insuficiente. Disponible: d, en carrito: e, solicitado: s`
  (thrown by `CarritoService.agregarProducto`). -/
  | validationStockAgregar (disponible enCarrito solicitado : Int)
  /-- `Stock insuficiente. Disponible: d, solicitado: s`
  (thrown by `CarritoService.actualizarCantidadProducto`). -/
  | validationStockActualizar (disponible solicitado : Int)
  /-- `Producto no encontrado` -/
  | notFoundProducto
  /-- `No se encontró un carrito activo` -/
  | notFoundCarrito
  /-- `El producto no está en el carrito` -/
  | notFoundDetalleEnCarrito
  /-- `Detalle de carrito no encontrado` (repository level) -/
  | notFoundDetalle
  deriving DecidableEq, Repr

/-- Whether the error is a `NotFoundError` (HTTP 404 class). -/
def CartError.isNotFound : CartError → Bool
  | .notFoundProducto => true
  | .notFoundCarrito => true
  | .notFoundDetalleEnCarrito => true
  | .notFoundDetalle => true
  | _ => false

/-- Whether the error is a `ValidationError` (HTTP 400 class). -/
def CartError.isValidation : CartError → Bool
  | .validationCantidad => true
  | .validationStockAgregar _ _ _ => true
  | .validationStockActualizar _ _ => true
  | _ => false

/-- Whether a service result is a thrown `NotFoundError`. -/
def resultIsNotFound {α : Type} : Except CartError α → Bool
  | .error e => e.isNotFound
  | .ok _ => false

/-- Whether a service result is a normal return. -/
def resultIsOk {α : Type} : Except CartError α → Bool
  | .error _ => false
  | .ok _ => true

/-! ## Repository layer (`CarritoRepository`, `BaseRepository.findById`) -/

/-- `BaseRepository.findById` on table `productos` (id column `id`):
`select * where id = productoId` with `.single()`. -/
def productFindById (db : DB) (productoId : Nat) : Option Producto :=
  single? (db.productos.filter fun p => p.id == productoId)

/-- The read phase of `CarritoRepository.getOrCreateCarrito`: the
`select * from carritos where usuario_id = _ and estado = 1` with
`.single()`. -/
def findActiveCarrito (db : DB) (usuarioId : Nat) : Option Carrito :=
  single? (db.carritos.filter fun c => c.usuario_id == usuarioId && c.estado == 1)

/-- The write phase of `CarritoRepository.getOrCreateCarrito`: the plain
`insert { usuario_id, estado: 1 }` performed when the read phase saw no
active cart. There is no uniqueness constraint on `(usuario_id, estado)` in
the documented schema and no conflict handling in the code. -/
def createCarrito (db : DB) (usuarioId : Nat) : Carrito × DB :=
  let c : Carrito :=
    { id := db.nextCarritoId, usuario_id := usuarioId,
      fecha_creacion := db.now, estado := 1 }
  (c, { db with carritos := db.carritos ++ [c],
                nextCarritoId := db.nextCarritoId + 1 })

/-- `CarritoRepository.getOrCreateCarrito`: return the active cart if the
lookup finds exactly one, else insert a fresh active cart. -/
def getOrCreateCarrito (db : DB) (usuarioId : Nat) : Carrito × DB :=
  match findActiveCarrito db usuarioId with
  | some c => (c, db)
  | none => createCarrito db usuarioId

/-- A joined row of the nested select
`detalles_carritos ( id, cantidad, productos (...) )`. -/
structure DetalleConProducto where
  id : Nat
  cantidad : Int
  productos : Producto
  deriving DecidableEq, Repr

/-- The join of a cart's `detalles_carritos` rows with their `productos` row
(inner join along the `producto_id` foreign key). -/
def joinDetalles (db : DB) (carritoId : Nat) : List DetalleConProducto :=
  (db.detalles.filter fun d => d.carrito_id == carritoId).filterMap fun d =>
    (db.productos.find? fun p => p.id == d.producto_id).map fun p =>
      { id := d.id, cantidad := d.cantidad, productos := p }

/-- The shape returned by `CarritoRepository.getCarritoConDetalles`. -/
structure CarritoConDetalles where
  id : Nat
  usuario_id : Nat
  fecha_creacion : Nat
  estado : Nat
  detalles_carritos : List DetalleConProducto
  deriving DecidableEq, Repr

/-- `CarritoRepository.getCarritoConDetalles`: the active cart of the user
with its joined line items, or `none` when the `.single()` lookup fails. -/
def getCarritoConDetalles (db : DB) (usuarioId : Nat) : Option CarritoConDetalles :=
  (findActiveCarrito db usuarioId).map fun c =>
    { id := c.id, usuario_id := c.usuario_id, fecha_creacion := c.fecha_creacion,
      estado := c.estado, detalles_carritos := joinDetalles db c.id }

/-- `CarritoRepository.agregarProducto`: read the existing
`(carrito_id, producto_id)` row with `.maybeSingle()`; if present, update it
to `existing.cantidad + cantidad`; else insert a new row with `cantidad`. -/
def repoAgregarProducto (db : DB) (carritoId productoId : Nat) (cantidad : Int) : DB :=
  match single? (db.detalles.filter fun d =>
      d.carrito_id == carritoId && d.producto_id == productoId) with
  | some existing =>
      { db with detalles := db.detalles.map fun d =>
          if d.id == existing.id then
            { d with cantidad := existing.cantidad + cantidad }
          else d }
  | none =>
      { db with
        detalles := db.detalles ++
          [{ id := db.nextDetalleId, carrito_id := carritoId,
             producto_id := productoId, cantidad := cantidad }],
        nextDetalleId := db.nextDetalleId + 1 }

/-- `CarritoRepository.actualizarCantidad`: `update detalles_carritos set
cantidad where id = detalleId` with `.single()`; zero matched rows raise
`NotFoundError`. -/
def repoActualizarCantidad (db : DB) (detalleId : Nat) (cantidad : Int) :
    Except CartError DB :=
  if db.detalles.any fun d => d.id == detalleId then
    .ok { db with detalles := db.detalles.map fun d =>
            if d.id == detalleId then { d with cantidad := cantidad } else d }
  else
    .error .notFoundDetalle

/-- `CarritoRepository.eliminarProducto`: `delete from detalles_carritos
where id = detalleId` (no error when nothing matches). -/
def repoEliminarProducto (db : DB) (detalleId : Nat) : DB :=
  { db with detalles := db.detalles.filter fun d => !(d.id == detalleId) }

/-! ## Service layer (`CarritoService`) -/

/-- One element of the `items` array built by
`CarritoService.obtenerCarritoActivo`. -/
structure ItemView where
  id : Nat
  producto_id : Nat
  nombre : String
  descripcion : String
  precio : ℚ
  cantidad : Int
  stock_disponible : Int
  subtotal : ℚ
  tiene_stock : Bool
  id_categoria : Nat
  deriving DecidableEq, Repr

/-- The per-line mapping inside `CarritoService.obtenerCarritoActivo`. -/
def mkItemView (detalle : DetalleConProducto) : ItemView :=
  { id := detalle.id
    producto_id := detalle.productos.id
    nombre := detalle.productos.nombre
    descripcion := detalle.productos.descripcion
    precio := detalle.productos.precio
    cantidad := detalle.cantidad
    stock_disponible := detalle.productos.stock
    subtotal := (detalle.cantidad : ℚ) * detalle.productos.precio
    tiene_stock := decide (detalle.productos.stock ≥ detalle.cantidad)
    id_categoria := detalle.productos.id_categoria }

/-- The cart view returned by `CarritoService.obtenerCarritoActivo`.
(In the empty-cart branch the source omits `cantidad_productos`, leaving it
`undefined`; it is 0 here.) -/
structure CartView where
  id : Nat
  usuario_id : Nat
  fecha_creacion : Nat
  estado : Nat
  items : List ItemView
  total : ℚ
  cantidad_items : Nat
  cantidad_productos : Int
  deriving DecidableEq, Repr

/-- `CarritoService.obtenerCarritoActivo` (the spec's `viewCart`):
get-or-create the active cart, re-read it with details, and build the view
with live prices, per-line subtotals and the recomputed total. -/
def obtenerCarritoActivo (db : DB) (usuarioId : Nat) : CartView × DB :=
  let r := getOrCreateCarrito db usuarioId
  match getCarritoConDetalles r.2 usuarioId with
  | none =>
      ({ id := r.1.id, usuario_id := r.1.usuario_id,
         fecha_creacion := r.1.fecha_creacion, estado := r.1.estado,
         items := [], total := 0, cantidad_items := 0,
         cantidad_productos := 0 }, r.2)
  | some ccd =>
      let items := ccd.detalles_carritos.map mkItemView
      ({ id := ccd.id, usuario_id := ccd.usuario_id,
         fecha_creacion := ccd.fecha_creacion, estado := ccd.estado,
         items := items,
         total := (items.map ItemView.subtotal).sum,
         cantidad_items := items.length,
         cantidad_productos := (items.map ItemView.cantidad).sum }, r.2)

/-- The in-cart quantity read by `CarritoService.agregarProducto` (lines
116-121): the quantity of the existing line for the product in the re-read
cart, or 0 when the cart or the line is absent. -/
def cantidadActualEnCarrito (carritoActual : Option CarritoConDetalles)
    (productoId : Nat) : Int :=
  match carritoActual with
  | none => 0
  | some ccd =>
      match ccd.detalles_carritos.find? fun d => d.productos.id == productoId with
      | none => 0
      | some detalleExistente => detalleExistente.cantidad

/-- `CarritoService.agregarProducto` (the spec's `addItem`): validate the
quantity, fetch the product, get-or-create the cart, check
`current + requested ≤ stock`, delegate to the repository upsert, and return
the recomputed view. The `Number.isInteger` and `Number.isFinite` guards hold
identically in the `Int` model. -/
def serviceAgregarProducto (db : DB) (usuarioId productoId : Nat) (cantidad : Int) :
    Except CartError CartView × DB :=
  if cantidad ≤ 0 then
    (.error .validationCantidad, db)
  else
    match productFindById db productoId with
    | none => (.error .notFoundProducto, db)
    | some producto =>
        let r := getOrCreateCarrito db usuarioId
        let carritoActual := getCarritoConDetalles r.2 usuarioId
        let cantidadActual := cantidadActualEnCarrito carritoActual productoId
        if cantidadActual + cantidad > producto.stock then
          (.error (.validationStockAgregar producto.stock cantidadActual cantidad), r.2)
        else
          let db2 := repoAgregarProducto r.2 r.1.id productoId cantidad
          let v := obtenerCarritoActivo db2 usuarioId
          (.ok v.1, v.2)

/-- `CarritoService.actualizarCantidadProducto` (the spec's
`setItemQuantity`): validate quantity, fetch product, check stock, locate
the cart and the line, set the line's quantity absolutely, and return the
recomputed view. -/
def serviceActualizarCantidadProducto (db : DB) (usuarioId productoId : Nat)
    (nuevaCantidad : Int) : Except CartError CartView × DB :=
  if nuevaCantidad ≤ 0 then
    (.error .validationCantidad, db)
  else
    match productFindById db productoId with
    | none => (.error .notFoundProducto, db)
    | some producto =>
        if nuevaCantidad > producto.stock then
          (.error (.validationStockActualizar producto.stock nuevaCantidad), db)
        else
          match getCarritoConDetalles db usuarioId with
          | none => (.error .notFoundCarrito, db)
          | some ccd =>
              match ccd.detalles_carritos.find? fun d =>
                  d.productos.id == productoId with
              | none => (.error .notFoundDetalleEnCarrito, db)
              | some detalleCarrito =>
                  match repoActualizarCantidad db detalleCarrito.id nuevaCantidad with
                  | .error e => (.error e, db)
                  | .ok db1 =>
                      let v := obtenerCarritoActivo db1 usuarioId
                      (.ok v.1, v.2)

/-- `CarritoService.eliminarProducto` (the spec's `removeItem`): locate the
cart and the line (NotFoundError when either is absent), delete the line,
and return the recomputed view. -/
def serviceEliminarProducto (db : DB) (usuarioId productoId : Nat) :
    Except CartError CartView × DB :=
  match getCarritoConDetalles db usuarioId with
  | none => (.error .notFoundCarrito, db)
  | some ccd =>
      match ccd.detalles_carritos.find? fun d => d.productos.id == productoId with
      | none => (.error .notFoundDetalleEnCarrito, db)
      | some detalleCarrito =>
          let db1 := repoEliminarProducto db detalleCarrito.id
          let v := obtenerCarritoActivo db1 usuarioId
          (.ok v.1, v.2)

/-! ## State well-formedness -/

/-- The active carts of a user. -/
def DB.activeCartsOf (db : DB) (usuarioId : Nat) : List Carrito :=
  db.carritos.filter fun c => c.usuario_id == usuarioId && c.estado == 1

/-- The documented `UNIQUE (carrito_id, producto_id)` constraint on
`detalles_carritos`. -/
def DB.uniquePairs (db : DB) : Prop :=
  ∀ d1 ∈ db.detalles, ∀ d2 ∈ db.detalles,
    d1.carrito_id = d2.carrito_id → d1.producto_id = d2.producto_id → d1 = d2

/-- Primary-key uniqueness of `detalles_carritos.id`. -/
def DB.uniqueDetalleIds (db : DB) : Prop :=
  ∀ d1 ∈ db.detalles, ∀ d2 ∈ db.detalles, d1.id = d2.id → d1 = d2

/-- Freshness of the `carritos` identity sequence: no line row references a
cart id that has not been allocated yet. -/
def DB.freshCarritoId (db : DB) : Prop :=
  ∀ d ∈ db.detalles, d.carrito_id ≠ db.nextCarritoId

/-- The line-lookup failure condition of the set-quantity and remove
operations: the user has no active cart, or the active cart has no line for
the product. -/
def lineAbsent (db : DB) (u productoId : Nat) : Prop :=
  match getCarritoConDetalles db u with
  | none => True
  | some ccd =>
      ccd.detalles_carritos.find? (fun d => d.productos.id == productoId) = none

/-! ## Concrete states for the scenarios -/

/-- A catalog product used by the concrete scenarios: price 10, stock 5. -/
def prodA : Producto :=
  { id := 1, nombre := "A", descripcion := "producto A", precio := 10,
    stock := 5, id_categoria := 1 }

/-- A state with one active cart for user 7 holding 2 units of product 1. -/
def dbC1 : DB :=
  { carritos := [{ id := 1, usuario_id := 7, fecha_creacion := 0, estado := 1 }],
    detalles := [{ id := 1, carrito_id := 1, producto_id := 1, cantidad := 2 }],
    productos := [prodA],
    nextCarritoId := 2, nextDetalleId := 2, now := 0 }

/-- A state with one product and no carts at all. -/
def dbEmpty : DB :=
  { carritos := [], detalles := [], productos := [prodA],
    nextCarritoId := 1, nextDetalleId := 1, now := 0 }

/-- A catalog-only state: one product, no carts, no lines — the starting
point of the merge-law scenario. -/
def initialDB (producto : Producto) : DB :=
  { carritos := [], detalles := [], productos := [producto],
    nextCarritoId := 1, nextDetalleId := 1, now := 0 }

/-! ## Helper lemmas -/

theorem getOrCreateCarrito_detalles (db : DB) (u : Nat) :
    (getOrCreateCarrito db u).2.detalles = db.detalles := by
  unfold getOrCreateCarrito createCarrito
  cases findActiveCarrito db u <;> rfl

theorem getOrCreateCarrito_productos (db : DB) (u : Nat) :
    (getOrCreateCarrito db u).2.productos = db.productos := by
  unfold getOrCreateCarrito createCarrito
  cases findActiveCarrito db u <;> rfl

theorem getOrCreateCarrito_carritos_of_found (db : DB) (u : Nat) (c : Carrito)
    (h : findActiveCarrito db u = some c) :
    getOrCreateCarrito db u = (c, db) := by
  unfold getOrCreateCarrito
  rw [h]

theorem obtenerCarritoActivo_detalles (db : DB) (u : Nat) :
    (obtenerCarritoActivo db u).2.detalles = db.detalles := by
  unfold obtenerCarritoActivo
  cases h : getCarritoConDetalles (getOrCreateCarrito db u).2 u <;>
    simp [h, getOrCreateCarrito_detalles]

/-- Membership in the joined line list decomposes into the underlying
`detalles_carritos` row and its `productos` row. -/
theorem mem_joinDetalles {db : DB} {cid : Nat} {x : DetalleConProducto}
    (hx : x ∈ joinDetalles db cid) :
    ∃ row ∈ db.detalles, row.carrito_id = cid ∧ x.id = row.id ∧
      x.cantidad = row.cantidad ∧ x.productos ∈ db.productos ∧
      x.productos.id = row.producto_id := by
  unfold joinDetalles at hx
  rcases List.mem_filterMap.1 hx with ⟨row, hrow, hmap⟩
  rcases List.mem_filter.1 hrow with ⟨hrowmem, hpred⟩
  rcases Option.map_eq_some'.1 hmap with ⟨p, hfind, hxeq⟩
  refine ⟨row, hrowmem, ?_, ?_, ?_, ?_, ?_⟩
  · exact eq_of_beq hpred
  · rw [← hxeq]
  · rw [← hxeq]
  · rw [← hxeq]
    exact List.mem_of_find?_eq_some hfind
  · rw [← hxeq]
    have := List.find?_some hfind
    exact eq_of_beq this

/-! ## C1: the line-upsert primitive -/

/-- C1 counterexample: with an existing line of quantity 2 for
`(cartId, productId) = (1, 1)`, the repository upsert called with quantity 3
stores quantity 5 = 2 + 3 (an increment), not 3 as the claimed replace
semantics would. -/
theorem C1_counterexample :
    ((repoAgregarProducto dbC1 1 1 3).detalles.map DetalleCarrito.cantidad = [5]) ∧
    ¬ ((repoAgregarProducto dbC1 1 1 3).detalles.map DetalleCarrito.cantidad = [3]) := by
  constructor
  · rfl
  · decide

/-- C1 (amended): when a line for `(cartId, productId)` exists, the
repository's line-upsert primitive adds the given quantity to the stored
quantity (the new stored value is the old quantity plus the argument); when
no such line exists, it inserts a new line carrying the given quantity. -/
theorem C1_line_upsert (db : DB) (carritoId productoId : Nat) (cantidad : Int) :
    (∀ d0, db.detalles.filter
        (fun d => d.carrito_id == carritoId && d.producto_id == productoId) = [d0] →
      (repoAgregarProducto db carritoId productoId cantidad).detalles.filter
          (fun d => d.carrito_id == carritoId && d.producto_id == productoId) =
        [{ d0 with cantidad := d0.cantidad + cantidad }]) ∧
    (db.detalles.filter
        (fun d => d.carrito_id == carritoId && d.producto_id == productoId) = [] →
      (repoAgregarProducto db carritoId productoId cantidad).detalles.filter
          (fun d => d.carrito_id == carritoId && d.producto_id == productoId) =
        [{ id := db.nextDetalleId, carrito_id := carritoId,
           producto_id := productoId, cantidad := cantidad }]) := by
  constructor
  · intro d0 h
    unfold repoAgregarProducto
    rw [h]
    simp only [single?]
    rw [List.filter_map]
    have hcong : ∀ d ∈ db.detalles,
        ((fun d => d.carrito_id == carritoId && d.producto_id == productoId) ∘
          (fun d => if d.id == d0.id then
              { d with cantidad := d0.cantidad + cantidad } else d)) d =
        (fun d => d.carrito_id == carritoId && d.producto_id == productoId) d := by
      intro d _
      by_cases hid : d.id = d0.id <;> simp [hid]
    rw [List.filter_congr hcong, h]
    simp
  · intro h
    unfold repoAgregarProducto
    rw [h]
    simp only [single?]
    simp [List.filter_append, h]

/-- C1 amended-claim witness: in `dbC1` (one line of quantity 2), the upsert
with quantity 3 leaves the `(1, 1)` line with quantity 2 + 3. -/
theorem C1_line_upsert_witness :
    (repoAgregarProducto dbC1 1 1 3).detalles.filter
        (fun d => d.carrito_id == 1 && d.producto_id == 1) =
      [{ id := 1, carrito_id := 1, producto_id := 1, cantidad := 5 }] := by
  have h := (C1_line_upsert dbC1 1 1 3).1
    { id := 1, carrito_id := 1, producto_id := 1, cantidad := 2 } (by decide)
  simpa using h

/-! ## C9 / C10: get-or-create of the active cart -/

/-- C9: two consecutive `getOrCreateCarrito` calls with no intervening
mutation return the same cart (same identity), and the second call does not
change the state; stated for any state whose active-cart lookup for the user
is well-formed (at most one active cart, the documented invariant). -/
theorem C9_getOrCreate_idempotent (db : DB) (u : Nat)
    (hone : (db.carritos.filter fun c => c.usuario_id == u && c.estado == 1).length ≤ 1) :
    ((getOrCreateCarrito (getOrCreateCarrito db u).2 u).1 = (getOrCreateCarrito db u).1) ∧
    ((getOrCreateCarrito (getOrCreateCarrito db u).2 u).2 = (getOrCreateCarrito db u).2) := by
  rcases hl : db.carritos.filter (fun c => c.usuario_id == u && c.estado == 1) with
    _ | ⟨x, _ | ⟨y, ys⟩⟩
  · have h1 : findActiveCarrito db u = none := by
      simp [findActiveCarrito, hl, single?]
    have hc : getOrCreateCarrito db u = createCarrito db u := by
      unfold getOrCreateCarrito
      rw [h1]
    have h2 : findActiveCarrito (createCarrito db u).2 u = some (createCarrito db u).1 := by
      simp [findActiveCarrito, createCarrito, List.filter_append, hl, single?]
    constructor <;> rw [hc] <;> unfold getOrCreateCarrito <;> rw [h2]
  · have h1 : findActiveCarrito db u = some x := by
      simp [findActiveCarrito, hl, single?]
    have hc : getOrCreateCarrito db u = (x, db) := by
      unfold getOrCreateCarrito
      rw [h1]
    constructor <;> rw [hc] <;> unfold getOrCreateCarrito <;> rw [h1]
  · rw [hl] at hone
    simp [List.length_cons] at hone

/-- C9 witness: on the empty state, the second `getOrCreateCarrito` call for
user 7 returns the cart the first call created, and changes nothing. -/
theorem C9_getOrCreate_idempotent_witness :
    ((getOrCreateCarrito (getOrCreateCarrito dbEmpty 7).2 7).1 =
      (getOrCreateCarrito dbEmpty 7).1) ∧
    ((getOrCreateCarrito (getOrCreateCarrito dbEmpty 7).2 7).2 =
      (getOrCreateCarrito dbEmpty 7).2) :=
  C9_getOrCreate_idempotent dbEmpty 7 (by decide)

/-- C10 counterexample: the store performs a non-atomic read-then-insert with
no uniqueness enforcement. Interleaving two concurrent
`getOrCreateCarrito 7` calls so that both read phases run against `dbEmpty`
before either write: each read returns `none` (first conjunct), so each
caller executes its create phase; composing the two inserts leaves TWO
active carts for user 7 (second conjunct) — refuting both "at most one of
them creates a cart row" and "two Active carts for one user never result". -/
theorem C10_counterexample :
    findActiveCarrito dbEmpty 7 = none ∧
    ((createCarrito (createCarrito dbEmpty 7).2 7).2.activeCartsOf 7).length = 2 := by
  decide

/-- C10 (amended): the store does not enforce uniqueness of
`(user_id, Active)` and has no fallback read: `getOrCreateCarrito` is a
non-atomic find-then-insert, so whenever a user has no active cart, two
concurrent calls whose read phases both precede the writes each observe no
cart and each create a row, leaving two Active carts for the user. -/
theorem C10_duplicate_active_carts (db : DB) (u : Nat)
    (h : db.carritos.filter (fun c => c.usuario_id == u && c.estado == 1) = []) :
    findActiveCarrito db u = none ∧
    ((createCarrito (createCarrito db u).2 u).2.activeCartsOf u).length = 2 := by
  constructor
  · simp [findActiveCarrito, h, single?]
  · simp [createCarrito, DB.activeCartsOf, List.filter_append, h]

/-- C10 amended-claim witness: concrete duplicate creation for user 9. -/
theorem C10_duplicate_active_carts_witness :
    findActiveCarrito dbEmpty 9 = none ∧
    ((createCarrito (createCarrito dbEmpty 9).2 9).2.activeCartsOf 9).length = 2 :=
  C10_duplicate_active_carts dbEmpty 9 (by decide)

/-! ## C8: empty-cart view -/

/-- C8: for a user with no pre-existing active cart (and, by the identity
sequence's freshness, no line rows attached to the yet-unallocated cart id),
the view operation does not fail: it lazily creates the cart and returns an
empty items list, total 0 and item count 0. -/
theorem C8_empty_cart_view (db : DB) (u : Nat)
    (hnone : db.carritos.filter (fun c => c.usuario_id == u && c.estado == 1) = [])
    (hfresh : db.freshCarritoId) :
    ((obtenerCarritoActivo db u).1.items = []) ∧
    ((obtenerCarritoActivo db u).1.total = 0) ∧
    ((obtenerCarritoActivo db u).1.cantidad_items = 0) := by
  have h1 : findActiveCarrito db u = none := by
    simp [findActiveCarrito, hnone, single?]
  have hc : getOrCreateCarrito db u = createCarrito db u := by
    unfold getOrCreateCarrito
    rw [h1]
  have h2 : findActiveCarrito (createCarrito db u).2 u = some (createCarrito db u).1 := by
    simp [findActiveCarrito, createCarrito, List.filter_append, hnone, single?]
  have hjoin : joinDetalles (createCarrito db u).2 (createCarrito db u).1.id = [] := by
    unfold joinDetalles
    have hf : (createCarrito db u).2.detalles.filter
        (fun d => d.carrito_id == (createCarrito db u).1.id) = [] := by
      rw [List.filter_eq_nil_iff]
      intro d hd
      have hmem : d ∈ db.detalles := hd
      have hne : d.carrito_id ≠ db.nextCarritoId := hfresh d hmem
      simp [createCarrito, hne]
    rw [hf]
    rfl
  have hget : getCarritoConDetalles (createCarrito db u).2 u =
      some { id := (createCarrito db u).1.id,
             usuario_id := (createCarrito db u).1.usuario_id,
             fecha_creacion := (createCarrito db u).1.fecha_creacion,
             estado := (createCarrito db u).1.estado,
             detalles_carritos := [] } := by
    unfold getCarritoConDetalles
    rw [h2, Option.map_some']
    rw [hjoin]
  simp [obtenerCarritoActivo, hc, hget]

/-- C8 witness: a brand-new user on the empty state gets the empty view. -/
theorem C8_empty_cart_view_witness :
    ((obtenerCarritoActivo dbEmpty 7).1.items = []) ∧
    ((obtenerCarritoActivo dbEmpty 7).1.total = 0) ∧
    ((obtenerCarritoActivo dbEmpty 7).1.cantidad_items = 0) :=
  C8_empty_cart_view dbEmpty 7 (by decide)
    (by intro d hd; exact absurd hd (List.not_mem_nil d))

/-! ## C3: stock guard of addItem -/

/-- C3: when the in-cart quantity read at the call plus the requested
quantity exceeds the product's stock read at the call, `agregarProducto`
returns the `ValidationError` carrying the available / in-cart / requested
quantities and mutates no cart line: the resulting state's
`detalles_carritos` rows equal the input's. (The cart row itself may have
been lazily created; the claim is about line mutation.) -/
theorem C3_stock_guard (db : DB) (u productoId : Nat) (cantidad : Int) (producto : Producto)
    (hq : 0 < cantidad)
    (hp : productFindById db productoId = some producto)
    (hover : cantidadActualEnCarrito
        (getCarritoConDetalles (getOrCreateCarrito db u).2 u) productoId + cantidad
        > producto.stock) :
    ((serviceAgregarProducto db u productoId cantidad).1 =
      .error (.validationStockAgregar producto.stock
        (cantidadActualEnCarrito
          (getCarritoConDetalles (getOrCreateCarrito db u).2 u) productoId)
        cantidad)) ∧
    ((serviceAgregarProducto db u productoId cantidad).2.detalles = db.detalles) := by
  have hq' : ¬ (cantidad ≤ 0) := by omega
  simp only [serviceAgregarProducto, hp, if_neg hq']
  rw [if_pos hover]
  exact ⟨rfl, getOrCreateCarrito_detalles db u⟩

/-- C3 witness: on `dbC1` (stock 5, 2 already in the cart), requesting 4 more
fails with the diagnostic ValidationError and leaves the single line at
quantity 2. -/
theorem C3_stock_guard_witness :
    ((serviceAgregarProducto dbC1 7 1 4).1 =
      .error (.validationStockAgregar 5 2 4)) ∧
    ((serviceAgregarProducto dbC1 7 1 4).2.detalles = dbC1.detalles) :=
  C3_stock_guard dbC1 7 1 4 prodA (by decide) (by decide) (by decide)

/-! ## C4 / C5: setItemQuantity -/

/-- C4: with a valid quantity `q ≤ stock`, an existing product and an
existing line for it in the user's active cart, `actualizarCantidadProducto`
succeeds and leaves that line (identified by its row id) with quantity
exactly `q`, regardless of its prior quantity. -/
theorem C4_absolute_set (db : DB) (u productoId : Nat) (q : Int)
    (producto : Producto) (ccd : CarritoConDetalles) (det : DetalleConProducto)
    (hq : 0 < q)
    (hp : productFindById db productoId = some producto)
    (hstock : q ≤ producto.stock)
    (hc : getCarritoConDetalles db u = some ccd)
    (hd : ccd.detalles_carritos.find? (fun d => d.productos.id == productoId) = some det) :
    (resultIsOk (serviceActualizarCantidadProducto db u productoId q).1 = true) ∧
    (∃ row ∈ (serviceActualizarCantidadProducto db u productoId q).2.detalles,
        row.id = det.id ∧ row.cantidad = q) ∧
    (∀ row ∈ (serviceActualizarCantidadProducto db u productoId q).2.detalles,
        row.id = det.id → row.cantidad = q) := by
  have hq' : ¬ (q ≤ 0) := by omega
  have hstock' : ¬ (q > producto.stock) := by omega
  have hc' := hc
  simp only [getCarritoConDetalles] at hc'
  rcases Option.map_eq_some'.1 hc' with ⟨c, hfindc, hccd⟩
  have hdet_mem : det ∈ ccd.detalles_carritos := List.mem_of_find?_eq_some hd
  have hdet_join : det ∈ joinDetalles db c.id := by
    rw [← hccd] at hdet_mem
    exact hdet_mem
  rcases mem_joinDetalles hdet_join with ⟨row, hrowmem, hrowcart, hid, hcant, hpmem, hpid⟩
  have hany : (db.detalles.any fun d => d.id == det.id) = true :=
    List.any_eq_true.2 ⟨row, hrowmem, by simp [hid]⟩
  have hupd : repoActualizarCantidad db det.id q =
      .ok { db with detalles := db.detalles.map fun d =>
              if d.id == det.id then { d with cantidad := q } else d } := by
    simp only [repoActualizarCantidad, hany]
    rfl
  simp only [serviceActualizarCantidadProducto, if_neg hq', hp, if_neg hstock', hc, hd, hupd]
  refine ⟨rfl, ?_, ?_⟩
  · rw [obtenerCarritoActivo_detalles]
    refine ⟨{ row with cantidad := q }, ?_, hid.symm, rfl⟩
    have : ({ row with cantidad := q } : DetalleCarrito) =
        (fun d => if d.id == det.id then { d with cantidad := q } else d) row := by
      simp [hid]
    rw [this]
    exact List.mem_map_of_mem _ hrowmem
  · rw [obtenerCarritoActivo_detalles]
    intro r hr hrid
    rcases List.mem_map.1 hr with ⟨d, hdmem, hdeq⟩
    by_cases hcase : d.id = det.id
    · rw [← hdeq]
      simp [hcase]
    · rw [← hdeq] at hrid
      simp [hcase] at hrid

/-- C4 witness: setting product 1 to quantity 5 on `dbC1` (prior quantity 2,
stock 5) succeeds and stores exactly 5, not 7. -/
theorem C4_absolute_set_witness :
    (resultIsOk (serviceActualizarCantidadProducto dbC1 7 1 5).1 = true) ∧
    (∃ row ∈ (serviceActualizarCantidadProducto dbC1 7 1 5).2.detalles,
        row.id = 1 ∧ row.cantidad = 5) ∧
    (∀ row ∈ (serviceActualizarCantidadProducto dbC1 7 1 5).2.detalles,
        row.id = 1 → row.cantidad = 5) :=
  C4_absolute_set dbC1 7 1 5 prodA
    { id := 1, usuario_id := 7, fecha_creacion := 0, estado := 1,
      detalles_carritos := [{ id := 1, cantidad := 2, productos := prodA }] }
    { id := 1, cantidad := 2, productos := prodA }
    (by decide) (by decide) (by decide) (by decide) (by decide)

/-- C5: given a valid quantity (positive and within stock) and an existing
product, `actualizarCantidadProducto` raises NotFoundError exactly when the
user's active cart or its line for the product is absent, and on that
failure it returns the state unchanged — in particular it never creates a
line. -/
theorem C5_set_notfound_iff (db : DB) (u productoId : Nat) (q : Int) (producto : Producto)
    (hq : 0 < q)
    (hp : productFindById db productoId = some producto)
    (hstock : q ≤ producto.stock) :
    ((resultIsNotFound (serviceActualizarCantidadProducto db u productoId q).1 = true) ↔
      lineAbsent db u productoId) ∧
    (lineAbsent db u productoId →
      (serviceActualizarCantidadProducto db u productoId q).2 = db) := by
  have hq' : ¬ (q ≤ 0) := by omega
  have hstock' : ¬ (q > producto.stock) := by omega
  cases hc : getCarritoConDetalles db u with
  | none =>
      simp only [serviceActualizarCantidadProducto, if_neg hq', hp, if_neg hstock', hc]
      exact ⟨by simp [lineAbsent, hc, resultIsNotFound, CartError.isNotFound],
             fun _ => by trivial⟩
  | some ccd =>
      cases hd : ccd.detalles_carritos.find? (fun d => d.productos.id == productoId) with
      | none =>
          simp only [serviceActualizarCantidadProducto, if_neg hq', hp, if_neg hstock', hc, hd]
          exact ⟨by simp [lineAbsent, hc, hd, resultIsNotFound, CartError.isNotFound],
                 fun _ => by trivial⟩
      | some det =>
          have hc' := hc
          simp only [getCarritoConDetalles] at hc'
          rcases Option.map_eq_some'.1 hc' with ⟨c, hfindc, hccd⟩
          have hdet_mem : det ∈ ccd.detalles_carritos := List.mem_of_find?_eq_some hd
          have hdet_join : det ∈ joinDetalles db c.id := by
            rw [← hccd] at hdet_mem
            exact hdet_mem
          rcases mem_joinDetalles hdet_join with ⟨row, hrowmem, _, hid, _, _, _⟩
          have hany : (db.detalles.any fun d => d.id == det.id) = true :=
            List.any_eq_true.2 ⟨row, hrowmem, by simp [hid]⟩
          have hupd : repoActualizarCantidad db det.id q =
              .ok { db with detalles := db.detalles.map fun d =>
                      if d.id == det.id then { d with cantidad := q } else d } := by
            simp only [repoActualizarCantidad, hany]
            rfl
          simp only [serviceActualizarCantidadProducto, if_neg hq', hp, if_neg hstock',
            hc, hd, hupd]
          constructor
          · simp [lineAbsent, hc, hd, resultIsNotFound]
          · intro habs
            simp [lineAbsent, hc, hd] at habs

/-- C5 witness: user 8 has no active cart in `dbC1`, so the set-quantity
call raises NotFoundError and returns the state untouched. -/
theorem C5_set_notfound_iff_witness :
    ((resultIsNotFound (serviceActualizarCantidadProducto dbC1 8 1 5).1 = true) ↔
      lineAbsent dbC1 8 1) ∧
    (lineAbsent dbC1 8 1 →
      (serviceActualizarCantidadProducto dbC1 8 1 5).2 = dbC1) :=
  C5_set_notfound_iff dbC1 8 1 5 prodA (by decide) (by decide) (by decide)

/-! ## C6: live total computation -/

/-- C6: for every `obtenerCarritoActivo` call, the returned total is the sum
over all items of quantity times price, each item's subtotal is its quantity
times that price, and each item's price is the current catalog price of its
product (the `Carrito` record stores neither a total nor prices, so no
cached value can be involved). -/
theorem C6_live_total (db : DB) (u : Nat) :
    ((obtenerCarritoActivo db u).1.total =
      ((obtenerCarritoActivo db u).1.items.map
        (fun i => (i.cantidad : ℚ) * i.precio)).sum) ∧
    (∀ i ∈ (obtenerCarritoActivo db u).1.items,
      i.subtotal = (i.cantidad : ℚ) * i.precio ∧
      ∃ p ∈ db.productos, p.id = i.producto_id ∧ i.precio = p.precio) := by
  simp only [obtenerCarritoActivo]
  cases hget : getCarritoConDetalles (getOrCreateCarrito db u).2 u with
  | none => simp
  | some ccd =>
      simp only []
      constructor
      · rw [List.map_map, List.map_map]
        rfl
      · intro i hi
        rcases List.mem_map.1 hi with ⟨d, hdmem, hdi⟩
        have hc' := hget
        simp only [getCarritoConDetalles] at hc'
        rcases Option.map_eq_some'.1 hc' with ⟨c, hfindc, hccd⟩
        have hdj : d ∈ joinDetalles (getOrCreateCarrito db u).2 c.id := by
          rw [← hccd] at hdmem
          exact hdmem
        rcases mem_joinDetalles hdj with ⟨row, _, _, _, _, hpmem, hpid⟩
        rw [getOrCreateCarrito_productos] at hpmem
        refine ⟨?_, d.productos, hpmem, ?_, ?_⟩
        · rw [← hdi]
          rfl
        · rw [← hdi]
          rfl
        · rw [← hdi]
          rfl

/-! ## C7: removeItem -/

/-- The state component returned by the view is unchanged when the user
already has an active cart. -/
theorem obtenerCarritoActivo_state_of_found {db : DB} {u : Nat} {c : Carrito}
    (h : findActiveCarrito db u = some c) :
    (obtenerCarritoActivo db u).2 = db := by
  have hgoc : getOrCreateCarrito db u = (c, db) := by
    unfold getOrCreateCarrito
    rw [h]
  simp only [obtenerCarritoActivo, hgoc]
  cases hg : getCarritoConDetalles db u <;> simp

/-- C7: `eliminarProducto` raises NotFoundError when the user's active cart
contains no line for the product (including when no active cart exists);
when the line exists, the call succeeds and the view recomputed on the
resulting state — what every subsequent `obtenerCarritoActivo` returns —
contains no item for that product. The hypothesis is the documented
`UNIQUE (carrito_id, producto_id)` storage constraint. -/
theorem C7_remove (db : DB) (u productoId : Nat) (hwf : db.uniquePairs) :
    (lineAbsent db u productoId →
      resultIsNotFound (serviceEliminarProducto db u productoId).1 = true) ∧
    (¬ lineAbsent db u productoId →
      resultIsOk (serviceEliminarProducto db u productoId).1 = true ∧
      ∀ i ∈ (obtenerCarritoActivo (serviceEliminarProducto db u productoId).2 u).1.items,
        i.producto_id ≠ productoId) := by
  cases hc : getCarritoConDetalles db u with
  | none =>
      refine ⟨fun _ => ?_, fun habs => ?_⟩
      · simp [serviceEliminarProducto, hc, resultIsNotFound, CartError.isNotFound]
      · exact absurd (by simp [lineAbsent, hc]) habs
  | some ccd =>
      cases hd : ccd.detalles_carritos.find? (fun d => d.productos.id == productoId) with
      | none =>
          refine ⟨fun _ => ?_, fun habs => ?_⟩
          · simp [serviceEliminarProducto, hc, hd, resultIsNotFound, CartError.isNotFound]
          · exact absurd (by simp [lineAbsent, hc, hd]) habs
      | some det =>
          constructor
          · intro habs
            simp [lineAbsent, hc, hd] at habs
          · intro _
            have hc' := hc
            simp only [getCarritoConDetalles] at hc'
            rcases Option.map_eq_some'.1 hc' with ⟨c, hfindc, hccd⟩
            have hdet_mem : det ∈ ccd.detalles_carritos := List.mem_of_find?_eq_some hd
            have hdet_join : det ∈ joinDetalles db c.id := by
              rw [← hccd] at hdet_mem
              exact hdet_mem
            rcases mem_joinDetalles hdet_join with
              ⟨row, hrowmem, hrowcart, hid, _, _, hpid⟩
            have hdetpid : det.productos.id = productoId := by
              have hpred := List.find?_some hd
              exact eq_of_beq hpred
            have hrowpid : row.producto_id = productoId := by
              rw [← hpid, hdetpid]
            have hfind1 : findActiveCarrito (repoEliminarProducto db det.id) u = some c :=
              hfindc
            have hsvc : serviceEliminarProducto db u productoId =
                (.ok (obtenerCarritoActivo (repoEliminarProducto db det.id) u).1,
                 (obtenerCarritoActivo (repoEliminarProducto db det.id) u).2) := by
              simp only [serviceEliminarProducto, hc, hd]
            rw [hsvc]
            refine ⟨rfl, ?_⟩
            rw [obtenerCarritoActivo_state_of_found hfind1]
            have hgoc1 : getOrCreateCarrito (repoEliminarProducto db det.id) u =
                (c, repoEliminarProducto db det.id) := by
              unfold getOrCreateCarrito
              rw [hfind1]
            have hget1 : getCarritoConDetalles (repoEliminarProducto db det.id) u =
                some { id := c.id, usuario_id := c.usuario_id,
                       fecha_creacion := c.fecha_creacion, estado := c.estado,
                       detalles_carritos :=
                         joinDetalles (repoEliminarProducto db det.id) c.id } := by
              simp only [getCarritoConDetalles, hfind1, Option.map_some']
            have hitems : (obtenerCarritoActivo (repoEliminarProducto db det.id) u).1.items =
                (joinDetalles (repoEliminarProducto db det.id) c.id).map mkItemView := by
              simp only [obtenerCarritoActivo, hgoc1, hget1]
            rw [hitems]
            intro i hi hieq
            rcases List.mem_map.1 hi with ⟨d, hdmem, hdi⟩
            rcases mem_joinDetalles hdmem with
              ⟨row2, hrow2mem, hrow2cart, _, _, _, hpid2⟩
            have hrow2f : row2 ∈ db.detalles.filter (fun x => !(x.id == det.id)) :=
              hrow2mem
            rcases List.mem_filter.1 hrow2f with ⟨hrow2db, hrow2ne⟩
            have hdpid : d.productos.id = productoId := by
              rw [← hdi] at hieq
              exact hieq
            have hrow2pid : row2.producto_id = productoId := by
              rw [← hpid2, hdpid]
            have heqrow : row2 = row :=
              hwf row2 hrow2db row hrowmem (by rw [hrow2cart, hrowcart])
                (by rw [hrow2pid, hrowpid])
            have : row2.id ≠ det.id := by
              simpa using hrow2ne
            exact this (by rw [heqrow, ← hid])

/-- C7 witness: removing product 1 from the cart in `dbC1` succeeds and the
recomputed view no longer shows it. -/
theorem C7_remove_witness :
    resultIsOk (serviceEliminarProducto dbC1 7 1).1 = true ∧
    ∀ i ∈ (obtenerCarritoActivo (serviceEliminarProducto dbC1 7 1).2 7).1.items,
      i.producto_id ≠ 1 := by
  have hwf : dbC1.uniquePairs := by
    intro d1 h1 d2 h2 _ _
    simp [dbC1] at h1 h2
    rw [h1, h2]
  have hnotabs : ¬ lineAbsent dbC1 7 1 := by
    intro habs
    exact Option.noConfusion habs
  exact (C7_remove dbC1 7 1 hwf).2 hnotabs

/-! ## C2: merge law for addItem -/

theorem single?_nil {α : Type} : single? ([] : List α) = none := rfl

theorem single?_singleton {α : Type} (x : α) : single? [x] = some x := rfl

theorem single?_cons_cons {α : Type} (x y : α) (l : List α) :
    single? (x :: y :: l) = none := rfl

/-- C2: starting from a catalog-only state, adding `a` units of a product
and then `b` more (with `0 < a`, `0 < b`, `a + b ≤ stock`) leaves the user's
active cart with exactly one line for the product, of quantity `a + b`; no
second line is created. -/
theorem C2_merge_law (uid : Nat) (producto : Producto) (a b : Int)
    (ha : 0 < a) (hb : 0 < b) (hab : a + b ≤ producto.stock) :
    (resultIsOk (serviceAgregarProducto (initialDB producto) uid producto.id a).1 = true) ∧
    (resultIsOk (serviceAgregarProducto
        (serviceAgregarProducto (initialDB producto) uid producto.id a).2
        uid producto.id b).1 = true) ∧
    ((serviceAgregarProducto
        (serviceAgregarProducto (initialDB producto) uid producto.id a).2
        uid producto.id b).2.detalles =
      [{ id := 1, carrito_id := 1, producto_id := producto.id, cantidad := a + b }]) ∧
    (findActiveCarrito
        (serviceAgregarProducto
          (serviceAgregarProducto (initialDB producto) uid producto.id a).2
          uid producto.id b).2 uid =
      some { id := 1, usuario_id := uid, fecha_creacion := 0, estado := 1 }) := by
  have ha' : ¬ (a ≤ 0) := by omega
  have hb' : ¬ (b ≤ 0) := by omega
  have hsa : ¬ (producto.stock < a) := by omega
  have hsb : ¬ (producto.stock < a + b) := by omega
  refine ⟨?_, ?_, ?_, ?_⟩ <;>
    simp [serviceAgregarProducto, initialDB, productFindById, getOrCreateCarrito,
      findActiveCarrito, createCarrito, getCarritoConDetalles, joinDetalles,
      cantidadActualEnCarrito, repoAgregarProducto, obtenerCarritoActivo,
      single?_nil, single?_singleton, single?_cons_cons, resultIsOk,
      ha', hb', hsa, hsb]

/-- C2 witness: user 7 adds 2 and then 2 more units of product 1
(stock 5): one line of quantity 4 results. -/
theorem C2_merge_law_witness :
    (resultIsOk (serviceAgregarProducto (initialDB prodA) 7 1 2).1 = true) ∧
    (resultIsOk (serviceAgregarProducto
        (serviceAgregarProducto (initialDB prodA) 7 1 2).2 7 1 2).1 = true) ∧
    ((serviceAgregarProducto
        (serviceAgregarProducto (initialDB prodA) 7 1 2).2 7 1 2).2.detalles =
      [{ id := 1, carrito_id := 1, producto_id := 1, cantidad := 4 }]) ∧
    (findActiveCarrito
        (serviceAgregarProducto
          (serviceAgregarProducto (initialDB prodA) 7 1 2).2 7 1 2).2 7 =
      some { id := 1, usuario_id := 7, fecha_creacion := 0, estado := 1 }) :=
  C2_merge_law 7 prodA 2 2 (by decide) (by decide) (by decide)
